import Mathlib

/-!
Verification of the envelope encryption subsystem of `workastra/desk`
(`src/internal/core/server/crypto/{types.ts, errors.ts, encryptionService.ts,
providers/jweA256GcmProvider.ts, factory.ts}`).

The TypeScript code is shallowly embedded:

* JS strings are Lean `String`s; `TextEncoder`/`TextDecoder` round-trips are
  the identity on (valid-Unicode) strings and are therefore elided.
* The `jose` compact JWE primitives are modelled as an ideal symmetric
  authenticated cipher: a compact JWE serialization is a `JWEToken` recording
  the protected header, the key it was produced under and the plaintext;
  `compactDecrypt` opens a token exactly when it is given the producing key.
  Real AES-256-GCM key import (base64 decode, 32-byte check, caching) is
  abstracted away: a cryptographic key handle is identified with the secret
  string it was derived from.
* Provider-level ciphertext strings form the inductive `ProvCipher`
  (a compact JWE serialization, or any other string); service-level input
  strings form the inductive `EncString`: either a string whose
  `atob` + `JSON.parse` succeeds, read at the metadata shape as an
  `EncryptedMetadata` whose fields may each be missing (`undefined`), or a
  string on which decoding or parsing throws. `encrypt` always returns
  `btoa(JSON.stringify(...))` of a metadata object with all three fields.
* Thrown JS exceptions are `Except JsError`; `try/catch` is a `match` on the
  result; `instanceof` checks are predicates on the `JsError` constructors.
* A JS `Map` is an insertion-ordered association list; `set` overwrites an
  existing key in place, `new Map(entries)` folds `set` over the entries.
-/

set_option autoImplicit false

/-- Truthiness of a JS string: falsy iff it is the empty string. -/
def jsTruthyStr (s : String) : Bool := s ≠ ""

/-- Truthiness of a possibly-`undefined` JS string parameter
(`undefined` and `""` are falsy). -/
def jsTruthy : Option String → Bool
  | none => false
  | some s => s ≠ ""

/-! ### JS `Map` with string keys (insertion-ordered association list) -/

/-- `Map.get`: value of the first (only) entry with the given key. -/
def jsMapGet {α : Type} : List (String × α) → String → Option α
  | [], _ => none
  | (k, v) :: rest, a => if k = a then some v else jsMapGet rest a

/-- `Map.has`. -/
def jsMapHas {α : Type} (m : List (String × α)) (a : String) : Bool :=
  (jsMapGet m a).isSome

/-- `Map.get` at a possibly-`undefined` key: `get(undefined)` always misses
a string-keyed map. -/
def jsMapGetOpt {α : Type} (m : List (String × α)) : Option String → Option α
  | none => none
  | some k => jsMapGet m k

/-- `Map.set`: overwrite in place when the key exists, else append. -/
def jsMapSet {α : Type} : List (String × α) → String → α → List (String × α)
  | [], k, v => [(k, v)]
  | (k', v') :: rest, k, v =>
    if k' = k then (k, v) :: rest else (k', v') :: jsMapSet rest k v

/-- `Map.delete`: remove the entry with the given key, if any. -/
def jsMapDelete {α : Type} : List (String × α) → String → List (String × α)
  | [], _ => []
  | (k', v') :: rest, k =>
    if k' = k then rest else (k', v') :: jsMapDelete rest k

/-- `new Map(entries)`: fold `set` over the entries in order. -/
def jsMapOfEntries {α : Type} (entries : List (String × α)) : List (String × α) :=
  entries.foldl (fun m kv => jsMapSet m kv.1 kv.2) []

/-! ### Error taxonomy (`errors.ts`)

`plainError` is a bare JS `Error` (e.g. the provider's
`new Error('Decryption failed')`, `atob`/`JSON.parse` exceptions). -/

/-- The JS error values thrown by the crypto subsystem.
`unsupportedAlgorithmError`'s `requestedAlgorithm` is the runtime value the
service passed to the constructor: `none` models the `undefined` read from
a parsed metadata object with no `algorithm` field (the TS type says
`string`, the runtime value need not be one). -/
inductive JsError : Type where
  | encryptionError (message : String) (algorithm : Option String)
      (cause : Option JsError)
  | decryptionError (message : String) (algorithm : Option String)
      (cause : Option JsError)
  | unsupportedAlgorithmError (requestedAlgorithm : Option String)
      (availableAlgorithms : List String)
  | noAlgorithmSpecifiedError (availableAlgorithms : List String)
  | noProvidersError
  | plainError (message : String)

/-- `error instanceof DecryptionError`. -/
def JsError.isDecryptionError : JsError → Bool
  | .decryptionError .. => true
  | _ => false

/-- `error instanceof UnsupportedAlgorithmError`. -/
def JsError.isUnsupportedAlgorithmError : JsError → Bool
  | .unsupportedAlgorithmError .. => true
  | _ => false

/-! ### Key material (`types.ts`, `EncryptionProvider` base class) -/

/-- `getSecretList()`: split the `SECRET` configuration value on commas,
trim, drop empties; a falsy source value or an empty result is a
configuration error. -/
def getSecretList (secret : String) : Except JsError (List String) :=
  if ¬ jsTruthyStr secret then .error (.plainError "Configuration error")
  else
    let secrets := ((secret.splitOn ",").map String.trim).filter
      (fun s => s ≠ "")
    if secrets = [] then .error (.plainError "Configuration error")
    else .ok secrets

/-! ### The `jose` compact JWE layer, idealised -/

/-- The protected header of a compact JWE
(`{alg, enc, ...(context && {kid: context})}`). -/
structure JoseHeader : Type where
  alg : String
  enc : String
  kid : Option String
  deriving DecidableEq

/-- An ideal compact JWE serialization: records what went in. Opening it
with the producing key recovers plaintext and protected header; any other
key fails authentication. -/
structure JWEToken : Type where
  header : JoseHeader
  key : String
  plaintext : String
  deriving DecidableEq

/-- A provider-level ciphertext string: a compact JWE serialization, or any
other string (the provider returns `''` for empty plaintext; `str ""` is
that empty string). -/
inductive ProvCipher : Type where
  | jwe (t : JWEToken)
  | str (s : String)
  deriving DecidableEq

/-- Truthiness of a provider ciphertext string. -/
def ProvCipher.jsTruthyPC : ProvCipher → Bool
  | .jwe _ => true
  | .str s => s ≠ ""

/-- `compactDecrypt(jwe, key)`: succeeds with plaintext and protected header
exactly when `key` is the key the token was produced under; every other
input throws (modelled as `none`). -/
def compactDecrypt : ProvCipher → String → Option (String × JoseHeader)
  | .jwe t, k => if t.key = k then some (t.plaintext, t.header) else none
  | .str _, _ => none

/-! ### `JWEA256GCMProvider` (`providers/jweA256GcmProvider.ts`),
parametrised by the rotation-ordered secret list (the result of
`getSecretList()`; key import is the identity in this model). -/

/-- `JWEA256GCMProvider.encrypt`: empty plaintext short-circuits to `''`;
otherwise build a compact JWE under the active (first) key, with `kid`
bound to the context iff the context is truthy. An empty secret list makes
`getActiveCryptoKey` throw the configuration error. -/
def jweEncrypt (keys : List String) (plaintext : String)
    (context : Option String) : Except JsError ProvCipher :=
  if ¬ jsTruthyStr plaintext then .ok (.str "")
  else
    match keys with
    | [] => .error (.plainError "Configuration error")
    | active :: _ =>
      .ok (.jwe
        { header :=
            { alg := "dir"
              enc := "A256GCM"
              kid := if jsTruthy context then context else none }
          key := active
          plaintext := plaintext })

/-- The rotation loop of `JWEA256GCMProvider.decrypt`: for each key in list
order, try `compactDecrypt`; on success, if the caller's context is truthy
and differs from the header's `kid`, treat it as a failure and continue;
exhausting the list throws `Error('Decryption failed')`. -/
def jweDecryptLoop (cipher : ProvCipher) (context : Option String) :
    List String → Except JsError String
  | [] => .error (.plainError "Decryption failed")
  | k :: rest =>
    match compactDecrypt cipher k with
    | none => jweDecryptLoop cipher context rest
    | some (pt, hdr) =>
      if jsTruthy context ∧ hdr.kid ≠ context then
        jweDecryptLoop cipher context rest
      else .ok pt

/-- `JWEA256GCMProvider.decrypt`: empty ciphertext short-circuits to `''`;
otherwise run the rotation loop over all keys in list order. The argument
may be the `undefined` read from a parsed metadata object with no `data`
field (the service passes `metadata.data` through unchecked); `undefined`
and `''` are both falsy, so `if (!jwe) return ''` short-circuits on
either. -/
def jweDecrypt (keys : List String) (cipher : Option ProvCipher)
    (context : Option String) : Except JsError String :=
  match cipher with
  | none => .ok ""
  | some c =>
    if ¬ c.jsTruthyPC then .ok ""
    else jweDecryptLoop c context keys

/-! ### Provider abstraction and service (`encryptionService.ts`) -/

/-- The `EncryptionProvider` capability: an algorithm tag plus encrypt and
decrypt behaviours (which may throw). `decrypt`'s first argument is
`Option` because the service hands it `metadata.data`, which is
`undefined` (`none`) when the parsed object has no `data` field. -/
structure EncryptionProvider : Type where
  ALGORITHM_IDENTIFIER : String
  encrypt : String → Option String → Except JsError ProvCipher
  decrypt : Option ProvCipher → Option String → Except JsError String

/-- The concrete `JWEA256GCMProvider`, parametrised by its secret list. -/
def JWEA256GCMProvider (keys : List String) : EncryptionProvider :=
  { ALGORITHM_IDENTIFIER := "JWE-A256GCM"
    encrypt := jweEncrypt keys
    decrypt := jweDecrypt keys }

/-- The result of reading a successfully `JSON.parse`d value at the
`EncryptedMetadata` shape `{algorithm, version, data}`: each field may be
missing (`undefined`, modelled `none`). `encrypt` always writes all three;
`decrypt` must cope with arbitrary parsed objects. A present field holding
a non-string value behaves exactly like some garbage string (an unregistered
algorithm / a non-JWE truthy `data`), which the model already covers. -/
structure EncryptedMetadata : Type where
  algorithm : Option String
  version : Option Nat
  data : Option ProvCipher
  deriving DecidableEq

/-- A service-level ciphertext string, split by what `atob` + `JSON.parse`
does to it: `envelope m` is any string that base64-decodes and JSON-parses,
read at the metadata shape as `m` (fields may be missing); `raw s` is any
string on which `atob` or `JSON.parse` throws. -/
inductive EncString : Type where
  | envelope (m : EncryptedMetadata)
  | raw (s : String)
  deriving DecidableEq

/-- Truthiness of a service-level ciphertext string: only the raw empty
string is falsy (a string that JSON-parses is never empty, since
`JSON.parse("")` throws). -/
def EncString.jsTruthyES : EncString → Bool
  | .envelope _ => true
  | .raw s => s ≠ ""

/-- `atob` + `JSON.parse` read at the metadata shape; a `raw` string throws
(modelled as `none`), a parsing string yields its (possibly partial)
object. -/
def decodeEnvelope : EncString → Option EncryptedMetadata
  | .envelope m => some m
  | .raw _ => none

/-- `EncryptOptions`: required algorithm (runtime value may still be the
empty string), optional context. -/
structure EncryptOptions : Type where
  algorithm : String
  context : Option String

/-- `DecryptOptions`: optional context. -/
structure DecryptOptions : Type where
  context : Option String

/-- `EncryptionService`: the registry built by the constructor
(`this.providers = new Map(config.providers)`). -/
structure EncryptionService : Type where
  providers : List (String × EncryptionProvider)

/-- `new EncryptionService(config)`: copy the supplied map, then reject an
empty registry. -/
def mkEncryptionService (configProviders : List (String × EncryptionProvider)) :
    Except JsError EncryptionService :=
  let providers := jsMapOfEntries configProviders
  if providers.length = 0 then .error .noProvidersError
  else .ok ⟨providers⟩

/-- `createEncryptionService(providers)` (`factory.ts`): key each provider
by its own `ALGORITHM_IDENTIFIER` and construct the service. -/
def createEncryptionService (providers : List EncryptionProvider) :
    Except JsError EncryptionService :=
  mkEncryptionService (providers.map fun p => (p.ALGORITHM_IDENTIFIER, p))

/-- `getSupportedAlgorithms()`: `[...this.providers.keys()]`. -/
def getSupportedAlgorithms (svc : EncryptionService) : List String :=
  svc.providers.map Prod.fst

/-- `isAlgorithmSupported(algorithm)`: `this.providers.has(algorithm)`. -/
def isAlgorithmSupported (svc : EncryptionService) (algorithm : String) :
    Bool :=
  jsMapHas svc.providers algorithm

/-- `getAlgorithmFromEncrypted(encryptedText)`: best-effort decode of the
envelope, returning `metadata.algorithm` (itself `undefined` when the
field is missing), and `undefined` on any parse failure. -/
def getAlgorithmFromEncrypted (_svc : EncryptionService)
    (encryptedText : EncString) : Option String :=
  match decodeEnvelope encryptedText with
  | some metadata => metadata.algorithm
  | none => none

/-- `EncryptionService.encrypt(plaintext, options)`: falsy algorithm →
`NoAlgorithmSpecifiedError`; unregistered algorithm →
`UnsupportedAlgorithmError`; otherwise delegate to the provider and wrap
its output in the metadata envelope (tagged with the provider's own
identifier), converting any provider failure into an `EncryptionError`
carrying the requested algorithm and the cause. -/
def svcEncrypt (svc : EncryptionService) (plaintext : String)
    (options : EncryptOptions) : Except JsError EncString :=
  if ¬ jsTruthyStr options.algorithm then
    .error (.noAlgorithmSpecifiedError (getSupportedAlgorithms svc))
  else
    match jsMapGet svc.providers options.algorithm with
    | none =>
      .error (.unsupportedAlgorithmError (some options.algorithm)
        (getSupportedAlgorithms svc))
    | some provider =>
      match provider.encrypt plaintext options.context with
      | .error e =>
        .error (.encryptionError "Encryption failed" (some options.algorithm)
          (some e))
      | .ok encrypted =>
        .ok (.envelope
          { algorithm := some provider.ALGORITHM_IDENTIFIER
            version := some 1
            data := some encrypted })

/-- The `try` block of `EncryptionService.decrypt`: decode the input (a
parse exception on a non-parsing string), look up the provider by
`metadata.algorithm` (`UnsupportedAlgorithmError` when unregistered or
when the field is missing — `get(undefined)` misses), then delegate,
passing `metadata.data` (possibly `undefined`) through unchecked. -/
def svcDecryptAttempt (svc : EncryptionService) (encryptedText : EncString)
    (options : Option DecryptOptions) : Except JsError String :=
  match decodeEnvelope encryptedText with
  | none => .error (.plainError "SyntaxError")
  | some metadata =>
    match jsMapGetOpt svc.providers metadata.algorithm with
    | none =>
      .error (.unsupportedAlgorithmError metadata.algorithm
        (getSupportedAlgorithms svc))
    | some provider =>
      provider.decrypt metadata.data (options.bind DecryptOptions.context)

/-- `EncryptionService.decrypt(encryptedText, options?)`: empty input →
`DecryptionError('Empty ciphertext')`; otherwise run the `try` block
(`svcDecryptAttempt`); a failure anywhere in it is re-thrown unchanged when
it is already an `UnsupportedAlgorithmError` or a `DecryptionError`, and
wrapped as `DecryptionError('Decryption failed')` with the cause preserved
otherwise. -/
def svcDecrypt (svc : EncryptionService) (encryptedText : EncString)
    (options : Option DecryptOptions) : Except JsError String :=
  if ¬ encryptedText.jsTruthyES then
    .error (.decryptionError "Empty ciphertext" none none)
  else
    match svcDecryptAttempt svc encryptedText options with
    | .ok plaintext => .ok plaintext
    | .error e =>
      if e.isUnsupportedAlgorithmError ∨ e.isDecryptionError then .error e
      else .error (.decryptionError "Decryption failed" none (some e))

/-- `reEncrypt(encryptedText, oldOptions, newOptions)`: decrypt under the
old options, then encrypt the recovered plaintext under the new options. -/
def svcReEncrypt (svc : EncryptionService) (encryptedText : EncString)
    (oldOptions : DecryptOptions) (newOptions : EncryptOptions) :
    Except JsError EncString := do
  let decrypted ← svcDecrypt svc encryptedText (some oldOptions)
  svcEncrypt svc decrypted newOptions

/-- The service produced by `createEncryptionService([new
JWEA256GCMProvider()])`, the only configuration the factory builds. -/
def jweService (keys : List String) : EncryptionService :=
  ⟨[("JWE-A256GCM", JWEA256GCMProvider keys)]⟩

/-- A plaintext of exactly 11 MiB (`'x'.repeat(11 * 1024 * 1024)`), the
oversized input the repository's own test feeds to `encrypt`. -/
def elevenMiB : String := String.mk (List.replicate (11 * 1024 * 1024) 'x')

/-! ### A tiny heap for JS `Map` objects

The constructor line `this.providers = new Map(config.providers)` is about
aliasing, which a pure embedding erases, so the map objects involved are
given explicit references: a `Store` holds the current value of every live
`Map` object, `Store.alloc` models `new Map(...)`, and mutating the caller's
map object is a write to its cell. -/

/-- The heap of live provider-`Map` objects; a reference is an index. -/
structure Store : Type where
  cells : List (List (String × EncryptionProvider))

/-- The current value of the map object with reference `r`. -/
def Store.read (st : Store) (r : Nat) :
    Option (List (String × EncryptionProvider)) :=
  st.cells[r]?

/-- Replace the value of the map object with reference `r`. -/
def Store.write (st : Store) (r : Nat)
    (v : List (String × EncryptionProvider)) : Store :=
  ⟨st.cells.set r v⟩

/-- `new Map(v)`: allocate a fresh map object holding `v`. -/
def Store.alloc (st : Store) (v : List (String × EncryptionProvider)) :
    Store × Nat :=
  (⟨st.cells ++ [v]⟩, st.cells.length)

/-- `map.set(k, p)` on the map object with reference `r`. -/
def mapSetAt (st : Store) (r : Nat) (k : String) (p : EncryptionProvider) :
    Store :=
  match st.read r with
  | some m => st.write r (jsMapSet m k p)
  | none => st

/-- `map.delete(k)` on the map object with reference `r`. -/
def mapDeleteAt (st : Store) (r : Nat) (k : String) : Store :=
  match st.read r with
  | some m => st.write r (jsMapDelete m k)
  | none => st

/-- `new EncryptionService({providers: <map object r>})`: read the caller's
map, allocate a fresh copy of it (`new Map(config.providers)`), reject an
empty registry; on success the service holds the reference of the copy. -/
def constructServiceAt (st : Store) (r : Nat) : Except JsError (Store × Nat) :=
  match st.read r with
  | none => .error (.plainError "TypeError")
  | some m =>
    let copy := jsMapOfEntries m
    let allocated := st.alloc copy
    if copy.length = 0 then .error .noProvidersError
    else .ok allocated

/-- The service backed by the map object with reference `r`. -/
def serviceAt (st : Store) (r : Nat) : Option EncryptionService :=
  (st.read r).map EncryptionService.mk

/-- Everything a caller can observe of a service in one bundle:
`getSupportedAlgorithms`, `isAlgorithmSupported`, `encrypt`, `decrypt`. -/
def serviceObservation (svc : EncryptionService) (a pt : String)
    (eo : EncryptOptions) (et : EncString) (dob : Option DecryptOptions) :
    List String × Bool × Except JsError EncString × Except JsError String :=
  (getSupportedAlgorithms svc, isAlgorithmSupported svc a,
   svcEncrypt svc pt eo, svcDecrypt svc et dob)

/-- A sample caller-side provider map value, for concrete instantiation. -/
def sampleConfigMap : List (String × EncryptionProvider) :=
  [("JWE-A256GCM", JWEA256GCMProvider ["k1"])]

/-- A heap holding just the sample caller map, at reference `0`. -/
def sampleStore : Store := ⟨[sampleConfigMap]⟩

/-! ## Theorems -/

theorem createEncryptionService_jwe (keys : List String) :
    createEncryptionService [JWEA256GCMProvider keys] = .ok (jweService keys) :=
  rfl

/-- `jsMapGet` succeeds exactly on the keys of the map. -/
theorem jsMapGet_isSome_iff_mem {α : Type} (m : List (String × α))
    (a : String) :
    (jsMapGet m a).isSome = true ↔ a ∈ m.map Prod.fst := by
  induction m with
  | nil => simp [jsMapGet]
  | cons kv rest ih =>
    obtain ⟨k, v⟩ := kv
    by_cases hk : k = a
    · subst hk; simp [jsMapGet]
    · simp [jsMapGet, hk, ih, Ne.symm hk]

/-- A key absent from the key list is not found by `jsMapGet`. -/
theorem jsMapGet_eq_none_of_not_mem {α : Type} (m : List (String × α))
    (a : String) (h : a ∉ m.map Prod.fst) : jsMapGet m a = none := by
  have := (jsMapGet_isSome_iff_mem m a).not.mpr h
  cases hg : jsMapGet m a with
  | none => rfl
  | some v => rw [hg] at this; simp at this

/-- The rotation loop rejects every key when the caller supplies a truthy
context that differs from the token's `kid`: a successful open is followed
by the context check throwing, a failed open continues, and either way the
loop moves on until the list is exhausted. -/
theorem jweDecryptLoop_kid_ne (t : JWEToken) (c : String) (hc : c ≠ "")
    (hkid : t.header.kid ≠ some c) (keys : List String) :
    jweDecryptLoop (.jwe t) (some c) keys
      = .error (.plainError "Decryption failed") := by
  induction keys with
  | nil => rfl
  | cons k rest ih =>
    by_cases hk : t.key = k
    · simp [jweDecryptLoop, compactDecrypt, hk, jsTruthy, hc, hkid, ih]
    · simp [jweDecryptLoop, compactDecrypt, hk, ih]

/-- C1: the spec (and the repository's own test `should fail decryption
without required context`) requires that an envelope encrypted with a
context fails to decrypt when the caller supplies no context; the code's
provider only checks the context when the caller supplies a truthy one
(`if (context && protectedHeader.kid !== context)`), so decrypting
`encrypt("sensitive data", {algorithm, context: "required_context"})` with
no context returns the plaintext instead of failing. -/
theorem decrypt_without_required_context_succeeds :
    (svcEncrypt (jweService ["k1"]) "sensitive data"
        ⟨"JWE-A256GCM", some "required_context"⟩).map
      (fun env => svcDecrypt (jweService ["k1"]) env none)
      = .ok (.ok "sensitive data") := rfl

/-- C2: the spec (and the repository's own test `should reject data over
10MB`) requires plaintexts over 10 MiB to be rejected before any
cryptographic primitive runs; neither `EncryptionService.encrypt` nor
`JWEA256GCMProvider.encrypt` contains any size check, so an 11 MiB
plaintext is encrypted successfully. -/
theorem oversized_plaintext_is_encrypted :
    svcEncrypt (jweService ["k1"]) elevenMiB ⟨"JWE-A256GCM", none⟩
      = .ok (.envelope
          { algorithm := some "JWE-A256GCM"
            version := some 1
            data := some (.jwe
              { header := { alg := "dir", enc := "A256GCM", kid := none }
                key := "k1"
                plaintext := elevenMiB }) }) ∧
    10 * 1024 * 1024 < elevenMiB.length := by
  refine ⟨rfl, ?_⟩
  show 10 * 1024 * 1024 < (List.replicate (11 * 1024 * 1024) 'x').length
  rw [List.length_replicate]
  norm_num

/-- C10: `isAlgorithmSupported` (`providers.has`) answers true exactly for
the members of the list `getSupportedAlgorithms` (`[...providers.keys()]`)
returns. -/
theorem isAlgorithmSupported_iff_mem (svc : EncryptionService) (a : String) :
    isAlgorithmSupported svc a = true ↔ a ∈ getSupportedAlgorithms svc :=
  jsMapGet_isSome_iff_mem svc.providers a

/-- C10 witness at the factory-built service. -/
theorem isAlgorithmSupported_iff_mem_witness :
    isAlgorithmSupported (jweService ["k1"]) "JWE-A256GCM" = true ↔
      "JWE-A256GCM" ∈ getSupportedAlgorithms (jweService ["k1"]) :=
  isAlgorithmSupported_iff_mem (jweService ["k1"]) "JWE-A256GCM"

/-- C7: encrypting with a falsy (missing/empty) algorithm fails with
`NoAlgorithmSpecifiedError` listing the registered identifiers, and
encrypting with a non-registered algorithm fails with
`UnsupportedAlgorithmError` listing them; the statement holds for every
service — in particular for arbitrary provider behaviours — so no provider
is consulted in either case. -/
theorem encrypt_algorithm_validation (svc : EncryptionService) (p : String)
    (c : Option String) (a : String) (ha : a ≠ "")
    (hna : a ∉ getSupportedAlgorithms svc) :
    svcEncrypt svc p ⟨"", c⟩
      = .error (.noAlgorithmSpecifiedError (getSupportedAlgorithms svc)) ∧
    svcEncrypt svc p ⟨a, c⟩
      = .error (.unsupportedAlgorithmError (some a)
          (getSupportedAlgorithms svc)) := by
  constructor
  · simp [svcEncrypt, jsTruthyStr]
  · have hget : jsMapGet svc.providers a = none :=
      jsMapGet_eq_none_of_not_mem _ _ hna
    simp [svcEncrypt, jsTruthyStr, ha, hget]

/-- C7 witness: both failure modes at the factory-built service. -/
theorem encrypt_algorithm_validation_witness :
    svcEncrypt (jweService ["k1"]) "data" ⟨"", none⟩
      = .error (.noAlgorithmSpecifiedError
          (getSupportedAlgorithms (jweService ["k1"]))) ∧
    svcEncrypt (jweService ["k1"]) "data" ⟨"INVALID-ALGO", none⟩
      = .error (.unsupportedAlgorithmError (some "INVALID-ALGO")
          (getSupportedAlgorithms (jweService ["k1"]))) :=
  encrypt_algorithm_validation (jweService ["k1"]) "data" none "INVALID-ALGO"
    (by decide) (by decide)

/-- C6 counterexample: inputs that base64-decode and JSON-parse but lack
envelope fields do not fail with a decryption failure, contradicting the
claim's "missing fields" case. With the `data` field missing, the parsed
object reaches the provider, whose `if (!jwe) return ''` short-circuits on
`undefined`: decrypt succeeds returning `''`. With the `algorithm` field
missing, `providers.get(undefined)` misses and the resulting
`UnsupportedAlgorithmError` is re-thrown unchanged: a failure, but not
decryption-class. -/
theorem decrypt_missing_fields_not_decryption_failure :
    svcDecrypt (jweService ["k1"])
        (.envelope
          { algorithm := some "JWE-A256GCM", version := some 1, data := none })
        none
      = .ok "" ∧
    svcDecrypt (jweService ["k1"])
        (.envelope
          { algorithm := none, version := some 1, data := some (.str "x") })
        none
      = .error (.unsupportedAlgorithmError none ["JWE-A256GCM"]) ∧
    (JsError.unsupportedAlgorithmError none
        ["JWE-A256GCM"]).isDecryptionError = false := by
  refine ⟨rfl, rfl, rfl⟩

/-- C6 amended: an input whose base64 decoding or JSON parsing fails is
wrapped as a `DecryptionError` with the parse exception as cause; an input
that parses but lacks the `data` field decrypts to `''` under the
registered JWE provider; one that lacks the `algorithm` field fails with
an `UnsupportedAlgorithmError` carrying the `undefined` requested
algorithm; every error `decrypt` surfaces is decryption-class or
unsupported-algorithm-class; and a provider-level failure is re-thrown
unchanged when it is already of one of those two classes, and otherwise
wrapped as `DecryptionError('Decryption failed')` with the cause
preserved. -/
theorem decrypt_error_discipline (svc : EncryptionService) (s : String)
    (keys : List String) (ver : Option Nat) (d : Option ProvCipher)
    (dob1 dob2 : Option DecryptOptions)
    (encryptedText : EncString) (options options2 : Option DecryptOptions)
    (e e2 : JsError) (m : EncryptedMetadata) (provider : EncryptionProvider)
    (hs : s ≠ "")
    (he : svcDecrypt svc encryptedText options = .error e)
    (hget : jsMapGetOpt svc.providers m.algorithm = some provider)
    (hpd : provider.decrypt m.data (options2.bind DecryptOptions.context)
      = .error e2) :
    svcDecrypt svc (.raw s) none
      = .error (.decryptionError "Decryption failed" none
          (some (.plainError "SyntaxError"))) ∧
    svcDecrypt (jweService keys)
        (.envelope
          { algorithm := some "JWE-A256GCM", version := ver, data := none })
        dob1
      = .ok "" ∧
    svcDecrypt svc (.envelope { algorithm := none, version := ver, data := d })
        dob2
      = .error (.unsupportedAlgorithmError none (getSupportedAlgorithms svc)) ∧
    (e.isUnsupportedAlgorithmError = true ∨ e.isDecryptionError = true) ∧
    svcDecrypt svc (.envelope m) options2
      = (if e2.isUnsupportedAlgorithmError ∨ e2.isDecryptionError
         then .error e2
         else .error (.decryptionError "Decryption failed" none (some e2))) := by
  refine ⟨?_, ?_, ?_, ?_, ?_⟩
  · simp [svcDecrypt, svcDecryptAttempt, EncString.jsTruthyES, hs,
      decodeEnvelope, JsError.isUnsupportedAlgorithmError,
      JsError.isDecryptionError]
  · simp [svcDecrypt, svcDecryptAttempt, EncString.jsTruthyES, decodeEnvelope,
      jweService, jsMapGetOpt, jsMapGet, JWEA256GCMProvider, jweDecrypt]
  · simp [svcDecrypt, svcDecryptAttempt, EncString.jsTruthyES, decodeEnvelope,
      jsMapGetOpt, JsError.isUnsupportedAlgorithmError,
      JsError.isDecryptionError]
  · rw [svcDecrypt] at he
    split at he
    · cases he
      right
      rfl
    · split at he
      · exact absurd he (by simp)
      · split at he
        · rename_i hclass
          cases he
          simpa using hclass
        · cases he
          right
          rfl
  · simp [svcDecrypt, svcDecryptAttempt, EncString.jsTruthyES, decodeEnvelope,
      hget, hpd]

/-- C6 witness: malformed input, the two missing-field behaviours, the
error class of the malformed-input failure, and the wrap of the provider's
bare `Error('Decryption failed')`. -/
theorem decrypt_error_discipline_witness :
    svcDecrypt (jweService ["k1"]) (.raw "not a valid envelope") none
      = .error (.decryptionError "Decryption failed" none
          (some (.plainError "SyntaxError"))) ∧
    svcDecrypt (jweService ["k1"])
        (.envelope
          { algorithm := some "JWE-A256GCM", version := some 1, data := none })
        none
      = .ok "" ∧
    svcDecrypt (jweService ["k1"])
        (.envelope
          { algorithm := none, version := some 1, data := some (.str "y") })
        none
      = .error (.unsupportedAlgorithmError none
          (getSupportedAlgorithms (jweService ["k1"]))) ∧
    ((JsError.decryptionError "Decryption failed" none
        (some (.plainError "SyntaxError"))).isUnsupportedAlgorithmError = true ∨
     (JsError.decryptionError "Decryption failed" none
        (some (.plainError "SyntaxError"))).isDecryptionError = true) ∧
    svcDecrypt (jweService ["k1"])
        (.envelope
          { algorithm := some "JWE-A256GCM"
            version := some 1
            data := some (.jwe
              { header := { alg := "dir", enc := "A256GCM", kid := none }
                key := "k2"
                plaintext := "pt" }) }) none
      = (if (JsError.plainError "Decryption failed").isUnsupportedAlgorithmError
            ∨ (JsError.plainError "Decryption failed").isDecryptionError
         then .error (.plainError "Decryption failed")
         else .error (.decryptionError "Decryption failed" none
            (some (.plainError "Decryption failed")))) :=
  decrypt_error_discipline (jweService ["k1"]) "not a valid envelope"
    ["k1"] (some 1) (some (.str "y")) none none
    (.raw "x") none none
    (.decryptionError "Decryption failed" none
      (some (.plainError "SyntaxError")))
    (.plainError "Decryption failed")
    { algorithm := some "JWE-A256GCM"
      version := some 1
      data := some (.jwe
        { header := { alg := "dir", enc := "A256GCM", kid := none }
          key := "k2"
          plaintext := "pt" }) }
    (JWEA256GCMProvider ["k1"])
    (by decide) rfl rfl rfl

/-- C3: for every plaintext (the model's `String` covers the empty string
and multi-byte content) and the registered algorithm, decrypting the
envelope produced by a context-free `encrypt` without a context yields the
plaintext, for any non-empty secret list. -/
theorem encrypt_decrypt_roundtrip (k : String) (ks : List String)
    (p : String) (env : EncString)
    (h : svcEncrypt (jweService (k :: ks)) p ⟨"JWE-A256GCM", none⟩ = .ok env) :
    svcDecrypt (jweService (k :: ks)) env none = .ok p := by
  by_cases hp : p = ""
  · subst hp
    simp [svcEncrypt, jsTruthyStr, jweService, jsMapGet, JWEA256GCMProvider,
      jweEncrypt] at h
    subst h
    rfl
  · simp [svcEncrypt, jsTruthyStr, hp, jweService, jsMapGet,
      JWEA256GCMProvider, jweEncrypt, jsTruthy] at h
    subst h
    simp [svcDecrypt, svcDecryptAttempt, EncString.jsTruthyES, decodeEnvelope,
      jweService, jsMapGetOpt, jsMapGet, JWEA256GCMProvider, jweDecrypt,
      ProvCipher.jsTruthyPC, jweDecryptLoop, compactDecrypt, jsTruthy]

/-- C3 witness: round-trip of `"Hello, World!"` under secret list
`["k1"]`. -/
theorem encrypt_decrypt_roundtrip_witness :
    svcDecrypt (jweService ["k1"])
        (.envelope
          { algorithm := some "JWE-A256GCM"
            version := some 1
            data := some (.jwe
              { header := { alg := "dir", enc := "A256GCM", kid := none }
                key := "k1"
                plaintext := "Hello, World!" }) }) none
      = .ok "Hello, World!" :=
  encrypt_decrypt_roundtrip "k1" [] "Hello, World!" _ rfl

/-- C4: a ciphertext produced under secret list `[A]` still decrypts under
`[B, A]` (the loop tries `B` first, fails, then succeeds with `A`); a new
encryption under `[B, A]` uses the active key `B` and decrypts; and under
`[B]` alone the old `A`-ciphertext exhausts the key list and surfaces as a
`DecryptionError`. -/
theorem key_rotation_fallback (A B p : String) (env : EncString)
    (hAB : A ≠ B) (hp : p ≠ "")
    (h : svcEncrypt (jweService [A]) p ⟨"JWE-A256GCM", none⟩ = .ok env) :
    svcDecrypt (jweService [B, A]) env none = .ok p ∧
    svcEncrypt (jweService [B, A]) p ⟨"JWE-A256GCM", none⟩
      = .ok (.envelope
          { algorithm := some "JWE-A256GCM"
            version := some 1
            data := some (.jwe
              { header := { alg := "dir", enc := "A256GCM", kid := none }
                key := B
                plaintext := p }) }) ∧
    svcDecrypt (jweService [B, A])
        (.envelope
          { algorithm := some "JWE-A256GCM"
            version := some 1
            data := some (.jwe
              { header := { alg := "dir", enc := "A256GCM", kid := none }
                key := B
                plaintext := p }) }) none
      = .ok p ∧
    svcDecrypt (jweService [B]) env none
      = .error (.decryptionError "Decryption failed" none
          (some (.plainError "Decryption failed"))) := by
  simp [svcEncrypt, jsTruthyStr, hp, jweService, jsMapGet,
    JWEA256GCMProvider, jweEncrypt, jsTruthy] at h
  subst h
  refine ⟨?_, ?_, ?_, ?_⟩
  · simp [svcDecrypt, svcDecryptAttempt, EncString.jsTruthyES, decodeEnvelope,
      jweService, jsMapGetOpt, jsMapGet, JWEA256GCMProvider, jweDecrypt,
      ProvCipher.jsTruthyPC, jweDecryptLoop, compactDecrypt, jsTruthy, hAB]
  · simp [svcEncrypt, jsTruthyStr, hp, jweService, jsMapGet,
      JWEA256GCMProvider, jweEncrypt, jsTruthy]
  · simp [svcDecrypt, svcDecryptAttempt, EncString.jsTruthyES, decodeEnvelope,
      jweService, jsMapGetOpt, jsMapGet, JWEA256GCMProvider, jweDecrypt,
      ProvCipher.jsTruthyPC, jweDecryptLoop, compactDecrypt, jsTruthy]
  · simp [svcDecrypt, svcDecryptAttempt, EncString.jsTruthyES, decodeEnvelope,
      jweService, jsMapGetOpt, jsMapGet, JWEA256GCMProvider, jweDecrypt,
      ProvCipher.jsTruthyPC, jweDecryptLoop, compactDecrypt, jsTruthy, hAB,
      JsError.isUnsupportedAlgorithmError, JsError.isDecryptionError]

/-- C4 witness: rotation from `["keyA"]` to `["keyB", "keyA"]` to
`["keyB"]` with plaintext `"data"`. -/
theorem key_rotation_fallback_witness :
    svcDecrypt (jweService ["keyB", "keyA"])
        (.envelope
          { algorithm := some "JWE-A256GCM"
            version := some 1
            data := some (.jwe
              { header := { alg := "dir", enc := "A256GCM", kid := none }
                key := "keyA"
                plaintext := "data" }) }) none
      = .ok "data" ∧
    svcEncrypt (jweService ["keyB", "keyA"]) "data" ⟨"JWE-A256GCM", none⟩
      = .ok (.envelope
          { algorithm := some "JWE-A256GCM"
            version := some 1
            data := some (.jwe
              { header := { alg := "dir", enc := "A256GCM", kid := none }
                key := "keyB"
                plaintext := "data" }) }) ∧
    svcDecrypt (jweService ["keyB", "keyA"])
        (.envelope
          { algorithm := some "JWE-A256GCM"
            version := some 1
            data := some (.jwe
              { header := { alg := "dir", enc := "A256GCM", kid := none }
                key := "keyB"
                plaintext := "data" }) }) none
      = .ok "data" ∧
    svcDecrypt (jweService ["keyB"])
        (.envelope
          { algorithm := some "JWE-A256GCM"
            version := some 1
            data := some (.jwe
              { header := { alg := "dir", enc := "A256GCM", kid := none }
                key := "keyA"
                plaintext := "data" }) }) none
      = .error (.decryptionError "Decryption failed" none
          (some (.plainError "Decryption failed"))) :=
  key_rotation_fallback "keyA" "keyB" "data" _ (by decide) (by decide) rfl

/-- C5: the envelope the service returns is tagged with the producing
provider's own algorithm identifier, so `getAlgorithmFromEncrypted`
recovers `JWE-A256GCM` from any successful factory-service encryption
(with or without a context, any secret list); and on any string that does
not decode as an envelope it returns `none` instead of failing. -/
theorem envelope_self_description (keys : List String) (p : String)
    (c : Option String) (env : EncString) (s : String)
    (h : svcEncrypt (jweService keys) p ⟨"JWE-A256GCM", c⟩ = .ok env) :
    getAlgorithmFromEncrypted (jweService keys) env = some "JWE-A256GCM" ∧
    getAlgorithmFromEncrypted (jweService keys) (.raw s) = none := by
  refine ⟨?_, rfl⟩
  rw [svcEncrypt] at h
  simp [jsTruthyStr, jweService, jsMapGet, JWEA256GCMProvider] at h
  cases heq : jweEncrypt keys p c with
  | error e => rw [heq] at h; simp at h
  | ok v =>
    rw [heq] at h
    simp at h
    subst h
    rfl

/-- C5 witness: identifier recovery from a concrete context-bound
encryption, and `none` on a non-envelope string. -/
theorem envelope_self_description_witness :
    getAlgorithmFromEncrypted (jweService ["k1"])
        (.envelope
          { algorithm := some "JWE-A256GCM"
            version := some 1
            data := some (.jwe
              { header := { alg := "dir", enc := "A256GCM", kid := some "c" }
                key := "k1"
                plaintext := "p" }) }) = some "JWE-A256GCM" ∧
    getAlgorithmFromEncrypted (jweService ["k1"]) (.raw "zzz") = none :=
  envelope_self_description ["k1"] "p" (some "c") _ "zzz" rfl

/-- C8: an envelope produced with no context carries no `kid`; decrypting
it with any truthy context fails for every rotation key list, because each
successfully opened token fails the context comparison and every other key
fails to open, so the loop exhausts the list and the service reports a
`DecryptionError`. -/
theorem decrypt_contextless_with_context_fails (k : String)
    (ks keys2 : List String) (p c : String) (env : EncString)
    (hp : p ≠ "") (hc : c ≠ "")
    (h : svcEncrypt (jweService (k :: ks)) p ⟨"JWE-A256GCM", none⟩ = .ok env) :
    svcDecrypt (jweService keys2) env (some ⟨some c⟩)
      = .error (.decryptionError "Decryption failed" none
          (some (.plainError "Decryption failed"))) := by
  simp [svcEncrypt, jsTruthyStr, hp, jweService, jsMapGet,
    JWEA256GCMProvider, jweEncrypt, jsTruthy] at h
  subst h
  have hloop := jweDecryptLoop_kid_ne
    { header := { alg := "dir", enc := "A256GCM", kid := none }
      key := k
      plaintext := p } c hc (by simp) keys2
  simp [svcDecrypt, svcDecryptAttempt, EncString.jsTruthyES, decodeEnvelope,
    jweService, jsMapGetOpt, jsMapGet, JWEA256GCMProvider, jweDecrypt,
    ProvCipher.jsTruthyPC, hloop, JsError.isUnsupportedAlgorithmError,
    JsError.isDecryptionError]

/-- C8 witness: ciphertext of `"data"` encrypted without a context fails to
decrypt under context `"ctx"`. -/
theorem decrypt_contextless_with_context_fails_witness :
    svcDecrypt (jweService ["k1"])
        (.envelope
          { algorithm := some "JWE-A256GCM"
            version := some 1
            data := some (.jwe
              { header := { alg := "dir", enc := "A256GCM", kid := none }
                key := "k1"
                plaintext := "data" }) }) (some ⟨some "ctx"⟩)
      = .error (.decryptionError "Decryption failed" none
          (some (.plainError "Decryption failed"))) :=
  decrypt_contextless_with_context_fails "k1" [] ["k1"] "data" "ctx" _
    (by decide) (by decide) rfl

/-- C9: `this.providers = new Map(config.providers)` copies the caller's
map into a freshly allocated object, so after construction any mutation of
the caller's map object (a `set` or a `delete`, i.e. any write to its
cell) leaves the service's map — and with it `getSupportedAlgorithms`,
`isAlgorithmSupported`, `encrypt` and `decrypt`, all pure functions of that
map — unchanged. -/
theorem constructor_copies_provider_map (st : Store) (r : Nat)
    (m : List (String × EncryptionProvider)) (st2 : Store) (r2 : Nat)
    (k pt a : String) (p : EncryptionProvider) (eo : EncryptOptions)
    (et : EncString) (dob : Option DecryptOptions)
    (hr : st.read r = some m)
    (hc : constructServiceAt st r = .ok (st2, r2)) :
    serviceAt st2 r2 = some ⟨jsMapOfEntries m⟩ ∧
    serviceAt (mapSetAt st2 r k p) r2 = serviceAt st2 r2 ∧
    serviceAt (mapDeleteAt st2 r k) r2 = serviceAt st2 r2 ∧
    (serviceAt (mapSetAt st2 r k p) r2).map
        (fun svc => serviceObservation svc a pt eo et dob)
      = (serviceAt st2 r2).map
        (fun svc => serviceObservation svc a pt eo et dob) ∧
    (serviceAt (mapDeleteAt st2 r k) r2).map
        (fun svc => serviceObservation svc a pt eo et dob)
      = (serviceAt st2 r2).map
        (fun svc => serviceObservation svc a pt eo et dob) := by
  have hr2 : st.cells[r]? = some m := hr
  have hlt : r < st.cells.length := (List.getElem?_eq_some_iff.mp hr2).1
  simp only [constructServiceAt, hr, Store.alloc] at hc
  split at hc
  · exact absurd hc (by simp)
  · injection hc with hc
    injection hc with hst hrr
    subst hst
    subst hrr
    have hcopy : (Store.mk (st.cells ++ [jsMapOfEntries m])).read
        st.cells.length = some (jsMapOfEntries m) :=
      List.getElem?_concat_length ..
    have hwrite : ∀ v,
        ((Store.mk (st.cells ++ [jsMapOfEntries m])).write r v).read
            st.cells.length
          = (Store.mk (st.cells ++ [jsMapOfEntries m])).read
            st.cells.length := by
      intro v
      exact List.getElem?_set_ne (Nat.ne_of_lt hlt)
    have hread_r : (Store.mk (st.cells ++ [jsMapOfEntries m])).read r
        = some m := by
      show (st.cells ++ [jsMapOfEntries m])[r]? = some m
      rw [List.getElem?_append_left hlt]
      exact hr2
    have h1 : serviceAt (Store.mk (st.cells ++ [jsMapOfEntries m]))
        st.cells.length = some ⟨jsMapOfEntries m⟩ := by
      rw [serviceAt, hcopy]
      rfl
    have h2 : serviceAt
        (mapSetAt (Store.mk (st.cells ++ [jsMapOfEntries m])) r k p)
        st.cells.length
      = serviceAt (Store.mk (st.cells ++ [jsMapOfEntries m]))
        st.cells.length := by
      rw [mapSetAt, hread_r]
      simp only [serviceAt, hwrite]
    have h3 : serviceAt
        (mapDeleteAt (Store.mk (st.cells ++ [jsMapOfEntries m])) r k)
        st.cells.length
      = serviceAt (Store.mk (st.cells ++ [jsMapOfEntries m]))
        st.cells.length := by
      rw [mapDeleteAt, hread_r]
      simp only [serviceAt, hwrite]
    exact ⟨h1, h2, h3, by rw [h2], by rw [h3]⟩

/-- C9 witness: constructing from the sample map at reference `0`
allocates the copy at reference `1`; a subsequent `set` or `delete` on the
caller's map leaves the service's view and observable behaviour unchanged. -/
theorem constructor_copies_provider_map_witness :
    serviceAt ⟨[sampleConfigMap, jsMapOfEntries sampleConfigMap]⟩ 1
      = some ⟨jsMapOfEntries sampleConfigMap⟩ ∧
    serviceAt
        (mapSetAt ⟨[sampleConfigMap, jsMapOfEntries sampleConfigMap]⟩ 0 "X"
          (JWEA256GCMProvider ["k2"])) 1
      = serviceAt ⟨[sampleConfigMap, jsMapOfEntries sampleConfigMap]⟩ 1 ∧
    serviceAt
        (mapDeleteAt ⟨[sampleConfigMap, jsMapOfEntries sampleConfigMap]⟩ 0
          "X") 1
      = serviceAt ⟨[sampleConfigMap, jsMapOfEntries sampleConfigMap]⟩ 1 ∧
    (serviceAt
        (mapSetAt ⟨[sampleConfigMap, jsMapOfEntries sampleConfigMap]⟩ 0 "X"
          (JWEA256GCMProvider ["k2"])) 1).map
        (fun svc => serviceObservation svc "JWE-A256GCM" "data"
          ⟨"JWE-A256GCM", none⟩ (.raw "x") none)
      = (serviceAt ⟨[sampleConfigMap, jsMapOfEntries sampleConfigMap]⟩ 1).map
        (fun svc => serviceObservation svc "JWE-A256GCM" "data"
          ⟨"JWE-A256GCM", none⟩ (.raw "x") none) ∧
    (serviceAt
        (mapDeleteAt ⟨[sampleConfigMap, jsMapOfEntries sampleConfigMap]⟩ 0
          "X") 1).map
        (fun svc => serviceObservation svc "JWE-A256GCM" "data"
          ⟨"JWE-A256GCM", none⟩ (.raw "x") none)
      = (serviceAt ⟨[sampleConfigMap, jsMapOfEntries sampleConfigMap]⟩ 1).map
        (fun svc => serviceObservation svc "JWE-A256GCM" "data"
          ⟨"JWE-A256GCM", none⟩ (.raw "x") none) :=
  constructor_copies_provider_map sampleStore 0 sampleConfigMap
    ⟨[sampleConfigMap, jsMapOfEntries sampleConfigMap]⟩ 1 "X" "data"
    "JWE-A256GCM" (JWEA256GCMProvider ["k2"]) ⟨"JWE-A256GCM", none⟩
    (.raw "x") none rfl rfl
